import Mathlib

/-!
The file `pkg/server/config.go` of metrics-server.

A shallow embedding of `Config.Complete`, `Config.installMetrics` and
`Config.informer`.  The three functions only wire external collaborators
together (client-go, apiserver, component-base, and the packages `api`,
`scraper`, `storage` of this repository), so the embedding is parameterised by
an `Env` that answers every collaborator call, and each function threads the
history of the calls made so far.  Every collaborator may answer differently
depending on that history, so a theorem quantified over `Env` covers stateful
collaborators as well.  Collaborator calls are assumed to return; a Go runtime
fault inside one of them is outside the model.
-/

namespace MetricsServer

/-- Go `time.Duration`: a signed count of nanoseconds.  The code only copies
durations, it never computes with them. -/
abbrev Duration := Int

/-- A non-nil Go `error` value.  `fmtError s` is the value built by
`fmt.Errorf` (without `%w`), whose message is the formatted string; `other`
stands for any error value produced elsewhere, `tag` abstracting its dynamic
type and identity. -/
inductive GoError where
  | fmtError (s : String)
  | other (tag : Nat) (s : String)
  deriving DecidableEq, Repr

/-- The `Error()` method. -/
def GoError.Error : GoError → String
  | .fmtError s => s
  | .other _ s => s

/-- A Go value of interface type `error`; `none` is `nil`. -/
abbrev error := Option GoError

/-- The verb `%v` applied to an `error`: the message of a non-nil error, and
`<nil>` for nil. -/
def fmt.verbV : error → String
  | some e => e.Error
  | none => "<nil>"

/-- The call `fmt.Errorf(format, err)` for a format made of a fixed text followed
by a single `%v`: a new error whose message is the text followed by the
formatted `err`. -/
def fmt.Errorf (text : String) (err : error) : error :=
  some (.fmtError (text ++ fmt.verbV err))

/-! ## Reference values

Every collaborator object is a Go pointer or interface value; it is modelled by
its address, address `0` being `nil`. -/

/-- Go type `*rest.Config`. -/
structure RestConfig where
  addr : Nat
  deriving DecidableEq, Repr

/-- Go type `*genericapiserver.Config`. -/
structure ApiserverConfig where
  addr : Nat
  deriving DecidableEq, Repr

/-- Go type `*scraper.KubeletClientConfig`. -/
structure KubeletClientConfig where
  addr : Nat
  deriving DecidableEq, Repr

/-- Go type `*kubernetes.Clientset`. -/
structure Clientset where
  addr : Nat
  deriving DecidableEq, Repr

/-- The kubelet client returned by `KubeletClientConfig.Complete`. -/
structure KubeletClient where
  addr : Nat
  deriving DecidableEq, Repr

/-- Go type `informers.SharedInformerFactory`. -/
structure SharedInformerFactory where
  addr : Nat
  deriving DecidableEq, Repr

/-- Go type `genericapiserver.CompletedConfig`. -/
structure CompletedConfig where
  addr : Nat
  deriving DecidableEq, Repr

/-- Go type `genericapiserver.DelegationTarget`. -/
structure DelegationTarget where
  addr : Nat
  deriving DecidableEq, Repr

/-- Go type `*genericapiserver.GenericAPIServer`. -/
structure GenericAPIServer where
  addr : Nat
  deriving DecidableEq, Repr

/-- Go type `metrics.KubeRegistry`. -/
structure KubeRegistry where
  addr : Nat
  deriving DecidableEq, Repr

/-- The store returned by `storage.NewStorage`. -/
structure Storage where
  addr : Nat
  deriving DecidableEq, Repr

/-- Go type `scraper.Scraper`, as returned by `scraper.NewScraper`. -/
structure Scraper where
  addr : Nat
  deriving DecidableEq, Repr

/-- Go type `*server`. -/
structure server where
  addr : Nat
  deriving DecidableEq, Repr

/-- The nil `*server`. -/
def server.nil : server := ⟨0⟩

/-- The nil `informers.SharedInformerFactory`. -/
def SharedInformerFactory.nil : SharedInformerFactory := ⟨0⟩

/-! ## client-go accessors

`informer.Core().V1().Nodes()`, `.Lister()`, `.Informer()` and the method value
`.HasSynced` are getters: each result is determined by the factory it was
reached from, which is all that is recorded. -/

/-- The value of `f.Core()`. -/
structure CoreInterface where
  factory : SharedInformerFactory
  deriving DecidableEq, Repr

/-- The value of `f.Core().V1()`. -/
structure CoreV1 where
  group : CoreInterface
  deriving DecidableEq, Repr

/-- The value of `f.Core().V1().Nodes()`: the node source. -/
structure NodeInformer where
  version : CoreV1
  deriving DecidableEq, Repr

/-- The value of `nodes.Lister()`. -/
structure NodeLister where
  source : NodeInformer
  deriving DecidableEq, Repr

/-- The value of `nodes.Informer()`. -/
structure SharedIndexInformer where
  source : NodeInformer
  deriving DecidableEq, Repr

/-- The method value `informer.HasSynced`, a `cache.InformerSynced`. -/
structure InformerSynced where
  receiver : SharedIndexInformer
  deriving DecidableEq, Repr

/-- Go expression `f.Core()`. -/
def SharedInformerFactory.Core (f : SharedInformerFactory) : CoreInterface := ⟨f⟩

/-- Go expression `g.V1()`. -/
def CoreInterface.V1 (g : CoreInterface) : CoreV1 := ⟨g⟩

/-- Go expression `v.Nodes()`. -/
def CoreV1.Nodes (v : CoreV1) : NodeInformer := ⟨v⟩

/-- Go expression `n.Lister()`. -/
def NodeInformer.Lister (n : NodeInformer) : NodeLister := ⟨n⟩

/-- Go expression `n.Informer()`. -/
def NodeInformer.Informer (n : NodeInformer) : SharedIndexInformer := ⟨n⟩

/-- Go expression `i.HasSynced` taken as a method value. -/
def SharedIndexInformer.HasSynced (i : SharedIndexInformer) : InformerSynced := ⟨i⟩

/-- The value of `s.Handler.NonGoRestfulMux`. -/
structure NonGoRestfulMux where
  owner : GenericAPIServer
  deriving DecidableEq, Repr

/-- Go expression `s.Handler.NonGoRestfulMux`. -/
def GenericAPIServer.NonGoRestfulMux (s : GenericAPIServer) : NonGoRestfulMux := ⟨s⟩

/-! ## Collaborator calls -/

/-- One call to a collaborator, with its arguments and what it returned. -/
inductive Call where
  | NewForConfig (c : RestConfig) (ret : Clientset) (err : error)
  | NewSharedInformerFactory (client : Clientset) (defaultResync : Duration)
      (ret : SharedInformerFactory)
  | KubeletComplete (k : KubeletClientConfig) (ret : KubeletClient) (err : error)
  | NewScraper (nodeLister : NodeLister) (client : KubeletClient) (scrapeTimeout : Duration)
      (ret : Scraper)
  | ApiserverComplete (a : ApiserverConfig) (informers : SharedInformerFactory)
      (ret : CompletedConfig)
  | NewEmptyDelegate (ret : DelegationTarget)
  | CompletedNew (cc : CompletedConfig) (name : String) (delegate : DelegationTarget)
      (ret : GenericAPIServer) (err : error)
  | NewKubeRegistry (ret : KubeRegistry)
  | RegisterScraperMetrics (registry : KubeRegistry) (err : error)
  | RegisterServerMetrics (registry : KubeRegistry) (resolution : Duration)
      (err : error)
  | ApimetricsRegister
  | DefaultMetricsInstall (registry : KubeRegistry) (mux : NonGoRestfulMux)
  | NewStorage (ret : Storage)
  | ApiInstall (store : Storage) (core : CoreV1) (s : GenericAPIServer) (err : error)
  | NewServer (sync : InformerSynced) (informer : SharedInformerFactory)
      (apiserver : GenericAPIServer) (store : Storage) (scrape : Scraper)
      (resolution : Duration) (ret : server)
  deriving DecidableEq, Repr

/-- The history of collaborator calls, oldest first. -/
abbrev History := List Call

/-- The answers of the collaborators.  Each one sees the history of the calls
made before it. -/
structure Env where
  /-- Answer of `kubernetes.NewForConfig`. -/
  NewForConfig : History → RestConfig → Clientset × error
  /-- Answer of `informers.NewSharedInformerFactory`. -/
  NewSharedInformerFactory : History → Clientset → Duration → SharedInformerFactory
  /-- Answer of `(*scraper.KubeletClientConfig).Complete`. -/
  KubeletComplete : History → KubeletClientConfig → KubeletClient × error
  /-- Answer of `scraper.NewScraper`. -/
  NewScraper : History → NodeLister → KubeletClient → Duration → Scraper
  /-- Answer of `(*genericapiserver.Config).Complete`. -/
  ApiserverComplete : History → ApiserverConfig → SharedInformerFactory → CompletedConfig
  /-- Answer of `genericapiserver.NewEmptyDelegate`. -/
  NewEmptyDelegate : History → DelegationTarget
  /-- Answer of `genericapiserver.CompletedConfig.New`. -/
  CompletedNew : History → CompletedConfig → String → DelegationTarget →
    GenericAPIServer × error
  /-- Answer of `metrics.NewKubeRegistry`. -/
  NewKubeRegistry : History → KubeRegistry
  /-- Answer of `scraper.RegisterScraperMetrics`, given `registry.Register`. -/
  RegisterScraperMetrics : History → KubeRegistry → error
  /-- Answer of `RegisterServerMetrics`, given `registry.Register` and the resolution. -/
  RegisterServerMetrics : History → KubeRegistry → Duration → error
  /-- Answer of `storage.NewStorage`. -/
  NewStorage : History → Storage
  /-- Answer of `api.Install`. -/
  ApiInstall : History → Storage → CoreV1 → GenericAPIServer → error
  /-- Answer of `NewServer`. -/
  NewServer : History → InformerSynced → SharedInformerFactory → GenericAPIServer →
    Storage → Scraper → Duration → server

/-- A computation that makes collaborator calls: it maps the history so far to
its result and the extended history. -/
def World (α : Type) : Type := History → α × History

instance : Monad World where
  pure a := fun h => (a, h)
  bind m f := fun h => let r := m h; f r.1 r.2

/-- Record a call in the history. -/
def record (c : Call) : World Unit := fun h => ((), h ++ [c])

namespace Env

/-- Call `kubernetes.NewForConfig(c)`. -/
def callNewForConfig (env : Env) (c : RestConfig) : World (Clientset × error) :=
  fun h => let r := env.NewForConfig h c; (r, h ++ [.NewForConfig c r.1 r.2])

/-- Call `informers.NewSharedInformerFactory(client, defaultResync)`. -/
def callNewSharedInformerFactory (env : Env) (client : Clientset) (defaultResync : Duration) :
    World SharedInformerFactory :=
  fun h => let r := env.NewSharedInformerFactory h client defaultResync
    (r, h ++ [.NewSharedInformerFactory client defaultResync r])

/-- Call `k.Complete()`. -/
def callKubeletComplete (env : Env) (k : KubeletClientConfig) :
    World (KubeletClient × error) :=
  fun h => let r := env.KubeletComplete h k; (r, h ++ [.KubeletComplete k r.1 r.2])

/-- Call `scraper.NewScraper(nodeLister, client, scrapeTimeout)`. -/
def callNewScraper (env : Env) (nodeLister : NodeLister) (client : KubeletClient)
    (scrapeTimeout : Duration) : World Scraper :=
  fun h => let r := env.NewScraper h nodeLister client scrapeTimeout
    (r, h ++ [.NewScraper nodeLister client scrapeTimeout r])

/-- Call `a.Complete(informers)`. -/
def callApiserverComplete (env : Env) (a : ApiserverConfig) (informers : SharedInformerFactory) :
    World CompletedConfig :=
  fun h => let r := env.ApiserverComplete h a informers
    (r, h ++ [.ApiserverComplete a informers r])

/-- Call `genericapiserver.NewEmptyDelegate()`. -/
def callNewEmptyDelegate (env : Env) : World DelegationTarget :=
  fun h => let r := env.NewEmptyDelegate h; (r, h ++ [.NewEmptyDelegate r])

/-- Call `cc.New(name, delegate)`. -/
def callCompletedNew (env : Env) (cc : CompletedConfig) (name : String)
    (delegate : DelegationTarget) : World (GenericAPIServer × error) :=
  fun h => let r := env.CompletedNew h cc name delegate
    (r, h ++ [.CompletedNew cc name delegate r.1 r.2])

/-- Call `metrics.NewKubeRegistry()`. -/
def callNewKubeRegistry (env : Env) : World KubeRegistry :=
  fun h => let r := env.NewKubeRegistry h; (r, h ++ [.NewKubeRegistry r])

/-- Call `scraper.RegisterScraperMetrics(registry.Register)`. -/
def callRegisterScraperMetrics (env : Env) (registry : KubeRegistry) : World (error) :=
  fun h => let r := env.RegisterScraperMetrics h registry
    (r, h ++ [.RegisterScraperMetrics registry r])

/-- Call `RegisterServerMetrics(registry.Register, resolution)`. -/
def callRegisterServerMetrics (env : Env) (registry : KubeRegistry) (resolution : Duration) :
    World (error) :=
  fun h => let r := env.RegisterServerMetrics h registry resolution
    (r, h ++ [.RegisterServerMetrics registry resolution r])

/-- Call `storage.NewStorage()`. -/
def callNewStorage (env : Env) : World Storage :=
  fun h => let r := env.NewStorage h; (r, h ++ [.NewStorage r])

/-- Call `api.Install(store, core, s)`. -/
def callApiInstall (env : Env) (store : Storage) (core : CoreV1) (s : GenericAPIServer) :
    World (error) :=
  fun h => let r := env.ApiInstall h store core s; (r, h ++ [.ApiInstall store core s r])

/-- Call `NewServer(sync, informer, apiserver, store, scrape, resolution)`. -/
def callNewServer (env : Env) (sync : InformerSynced) (informer : SharedInformerFactory)
    (apiserver : GenericAPIServer) (store : Storage) (scrape : Scraper)
    (resolution : Duration) : World server :=
  fun h => let r := env.NewServer h sync informer apiserver store scrape resolution
    (r, h ++ [.NewServer sync informer apiserver store scrape resolution r])

end Env

/-- The Go struct `Config`. -/
structure Config where
  Apiserver : ApiserverConfig
  Rest : RestConfig
  Kubelet : KubeletClientConfig
  MetricResolution : Duration
  ScrapeTimeout : Duration
  deriving DecidableEq, Repr

/-- Go call `apimetrics.Register()`. -/
def apimetrics.Register : World Unit := record .ApimetricsRegister

/-- Go call `Install(mux)` on the composite literal of `DefaultMetrics` holding `registry`. -/
def DefaultMetrics.Install (registry : KubeRegistry) (mux : NonGoRestfulMux) : World Unit :=
  record (.DefaultMetricsInstall registry mux)

/-- Go function `func (c Config) informer() (informers.SharedInformerFactory, error)`. -/
def Config.informer (env : Env) (c : Config) : World (SharedInformerFactory × error) := do
  let (kubeClient, err) ← env.callNewForConfig c.Rest
  if err ≠ none then
    return (SharedInformerFactory.nil, fmt.Errorf "unable to construct lister client: " err)
  return (← env.callNewSharedInformerFactory kubeClient 0, none)

/-- Go function `func (c Config) installMetrics(s *genericapiserver.GenericAPIServer) error`. -/
def Config.installMetrics (env : Env) (c : Config) (s : GenericAPIServer) : World error := do
  let registry ← env.callNewKubeRegistry
  let err ← env.callRegisterScraperMetrics registry
  if err ≠ none then
    return fmt.Errorf "unable to register scraper metrics: " err
  let err ← env.callRegisterServerMetrics registry c.MetricResolution
  if err ≠ none then
    return fmt.Errorf "unable to register server metrics: " err
  apimetrics.Register
  DefaultMetrics.Install registry s.NonGoRestfulMux
  return none

/-- Go function `func (c Config) Complete() (*server, error)`. -/
def Config.Complete (env : Env) (c : Config) : World (server × error) := do
  let (informer, err) ← c.informer env
  if err ≠ none then
    return (server.nil, err)
  let (kubeletClient, err) ← env.callKubeletComplete c.Kubelet
  if err ≠ none then
    return (server.nil,
      fmt.Errorf "unable to construct a client to connect to the kubelets: " err)
  let nodes := informer.Core.V1.Nodes
  let scrape ← env.callNewScraper nodes.Lister kubeletClient c.ScrapeTimeout

  let completed ← env.callApiserverComplete c.Apiserver informer
  let (genericServer, err) ←
    env.callCompletedNew completed "metrics-server" (← env.callNewEmptyDelegate)
  if err ≠ none then
    return (server.nil, err)

  let err ← c.installMetrics env genericServer
  if err ≠ none then
    return (server.nil, err)

  let store ← env.callNewStorage
  let err ← env.callApiInstall store informer.Core.V1 genericServer
  if err ≠ none then
    return (server.nil, err)
  return (← env.callNewServer
    nodes.Informer.HasSynced
    informer
    genericServer
    store
    scrape
    c.MetricResolution, none)

/-! ## A concrete environment -/

/-- An environment in which the n-th call (counted from 0) returns the object at
address `n + 1`, and the fallible calls whose position is listed in `failing` fail. -/
def testEnv (failing : List Nat) : Env where
  NewForConfig h _ :=
    (⟨h.length + 1⟩, if h.length ∈ failing then some (.other 1 "no client") else none)
  NewSharedInformerFactory h _ _ := ⟨h.length + 1⟩
  KubeletComplete h _ :=
    (⟨h.length + 1⟩, if h.length ∈ failing then some (.other 2 "no kubelet") else none)
  NewScraper h _ _ _ := ⟨h.length + 1⟩
  ApiserverComplete h _ _ := ⟨h.length + 1⟩
  NewEmptyDelegate h := ⟨h.length + 1⟩
  CompletedNew h _ _ _ :=
    (⟨h.length + 1⟩, if h.length ∈ failing then some (.other 3 "no apiserver") else none)
  NewKubeRegistry h := ⟨h.length + 1⟩
  RegisterScraperMetrics h _ :=
    if h.length ∈ failing then some (.other 4 "duplicate scraper metric") else none
  RegisterServerMetrics h _ _ :=
    if h.length ∈ failing then some (.other 5 "duplicate server metric") else none
  NewStorage h := ⟨h.length + 1⟩
  ApiInstall h _ _ _ := if h.length ∈ failing then some (.other 6 "no api group") else none
  NewServer h _ _ _ _ _ _ := ⟨h.length + 1⟩

/-- A configuration whose scrape timeout (90s) exceeds its resolution (60s). -/
def badConfig : Config :=
  { Apiserver := ⟨101⟩, Rest := ⟨102⟩, Kubelet := ⟨103⟩,
    MetricResolution := 60000000000, ScrapeTimeout := 90000000000 }

/-- A configuration whose scrape timeout (10s) is within its resolution (60s). -/
def goodConfig : Config :=
  { Apiserver := ⟨101⟩, Rest := ⟨102⟩, Kubelet := ⟨103⟩,
    MetricResolution := 60000000000, ScrapeTimeout := 10000000000 }

/-! ## Observations on a history -/

/-- The calls a computation adds to the history `h`. -/
def callsOf {α : Type} (m : World α) (h : History) : List Call := (m h).2.drop h.length

/-- The `error` result of a call; `none` for a call that has no such result. -/
def Call.err : Call → error
  | .NewForConfig _ _ e => e
  | .KubeletComplete _ _ e => e
  | .CompletedNew _ _ _ _ e => e
  | .RegisterScraperMetrics _ e => e
  | .RegisterServerMetrics _ _ e => e
  | .ApiInstall _ _ _ e => e
  | _ => none

/-- The steps of `Config.Complete`. -/
inductive Step where
  | informer
  | kubeletComplete
  | newScraper
  | genericServer
  | installMetrics
  | newStorage
  | apiInstall
  | newServer
  deriving DecidableEq, Repr

/-- The steps of `Config.Complete` in the order of its source text. -/
def Step.order : List Step :=
  [.informer, .kubeletComplete, .newScraper, .genericServer, .installMetrics, .newStorage,
    .apiInstall, .newServer]

/-- The steps whose result includes an `error`. -/
def Step.fallible : List Step :=
  [.informer, .kubeletComplete, .genericServer, .installMetrics, .apiInstall]

/-- The step of `Config.Complete` in which a call is made: `c.informer()` makes
the first two, `c.Apiserver.Complete(informer).New(name, NewEmptyDelegate())` the
three of `genericServer`, `c.installMetrics(genericServer)` the five of
`installMetrics`. -/
def Call.step : Call → Step
  | .NewForConfig .. => .informer
  | .NewSharedInformerFactory .. => .informer
  | .KubeletComplete .. => .kubeletComplete
  | .NewScraper .. => .newScraper
  | .ApiserverComplete .. => .genericServer
  | .NewEmptyDelegate .. => .genericServer
  | .CompletedNew .. => .genericServer
  | .NewKubeRegistry .. => .installMetrics
  | .RegisterScraperMetrics .. => .installMetrics
  | .RegisterServerMetrics .. => .installMetrics
  | .ApimetricsRegister => .installMetrics
  | .DefaultMetricsInstall .. => .installMetrics
  | .NewStorage .. => .newStorage
  | .ApiInstall .. => .apiInstall
  | .NewServer .. => .newServer

/-- The calls to `scraper.NewScraper`: the timeout each was given and the scraper
it returned. -/
def scrapersBuilt (calls : List Call) : List (Duration × Scraper) :=
  calls.filterMap fun
    | .NewScraper _ _ t r => some (t, r)
    | _ => none

/-- The calls to `NewServer`: the scraper and the resolution each was given and
the server it returned. -/
def serversBuilt (calls : List Call) : List (Scraper × Duration × server) :=
  calls.filterMap fun
    | .NewServer _ _ _ _ sc d r => some (sc, d, r)
    | _ => none

/-- The timeouts handed to `scraper.NewScraper`, one per call. -/
def scraperTimeouts (calls : List Call) : List Duration :=
  calls.filterMap fun
    | .NewScraper _ _ t _ => some t
    | _ => none

/-- The resolutions handed to `NewServer`, one per call. -/
def serverResolutions (calls : List Call) : List Duration :=
  calls.filterMap fun
    | .NewServer _ _ _ _ _ d _ => some d
    | _ => none

/-- The stores returned by `storage.NewStorage`, one per call. -/
def storesCreated (calls : List Call) : List Storage :=
  calls.filterMap fun
    | .NewStorage r => some r
    | _ => none

/-- The stores handed to `api.Install`, one per call. -/
def storesInstalled (calls : List Call) : List Storage :=
  calls.filterMap fun
    | .ApiInstall st _ _ _ => some st
    | _ => none

/-- The stores handed to `NewServer`, one per call. -/
def storesServed (calls : List Call) : List Storage :=
  calls.filterMap fun
    | .NewServer _ _ _ st _ _ _ => some st
    | _ => none

/-- The factories returned by `informers.NewSharedInformerFactory`, with the
resync interval each was given. -/
def factoriesBuilt (calls : List Call) : List (Duration × SharedInformerFactory) :=
  calls.filterMap fun
    | .NewSharedInformerFactory _ d r => some (d, r)
    | _ => none

/-- The node listers handed to `scraper.NewScraper`, one per call. -/
def scraperListers (calls : List Call) : List NodeLister :=
  calls.filterMap fun
    | .NewScraper l _ _ _ => some l
    | _ => none

/-- The readiness gate and the factory handed to `NewServer`, one pair per call. -/
def serverSources (calls : List Call) : List (InformerSynced × SharedInformerFactory) :=
  calls.filterMap fun
    | .NewServer sync f _ _ _ _ _ => some (sync, f)
    | _ => none

/-- The factories handed to `(*genericapiserver.Config).Complete`, one per call. -/
def apiserverFactories (calls : List Call) : List SharedInformerFactory :=
  calls.filterMap fun
    | .ApiserverComplete _ f _ => some f
    | _ => none

/-- The core/v1 informer groups handed to `api.Install`, one per call. -/
def apiCores (calls : List Call) : List CoreV1 :=
  calls.filterMap fun
    | .ApiInstall _ core _ _ => some core
    | _ => none

/-- The statement that `Config.Complete` enforces `ScrapeTimeout ≤ MetricResolution`
on this run: it returns an error, or every timeout it hands to
`scraper.NewScraper` is at most every resolution it hands to `NewServer`. -/
def RejectsOrClamps (env : Env) (c : Config) (h : History) : Prop :=
  (c.Complete env h).1.2 ≠ none ∨
    ∀ t ∈ scraperTimeouts (callsOf (c.Complete env) h),
      ∀ d ∈ serverResolutions (callsOf (c.Complete env) h), t ≤ d

instance (env : Env) (c : Config) (h : History) : Decidable (RejectsOrClamps env c h) := by
  unfold RejectsOrClamps; infer_instance

/-! ## Reasoning about computations -/

/-- The computation `m`, started on `h`, ends with a result and a history that
satisfy `Q`. -/
def Ensures {α : Type} (m : World α) (h : History) (Q : α → History → Prop) : Prop :=
  Q (m h).1 (m h).2

/-- The possible outcomes of `c.informer` started on history `h`. -/
def informerShape (c : Config) (h : History)
    (out : (SharedInformerFactory × error) × History) : Prop :=
  (∃ client e, out =
      ((SharedInformerFactory.nil, fmt.Errorf "unable to construct lister client: " (some e)),
        h ++ [.NewForConfig c.Rest client (some e)])) ∨
  (∃ client f, out =
      ((f, none), h ++ [.NewForConfig c.Rest client none, .NewSharedInformerFactory client 0 f]))

/-- The possible outcomes of `c.installMetrics s` started on history `h`. -/
def installMetricsShape (c : Config) (s : GenericAPIServer) (h : History)
    (out : error × History) : Prop :=
  (∃ reg e, out =
      (fmt.Errorf "unable to register scraper metrics: " (some e),
        h ++ [.NewKubeRegistry reg, .RegisterScraperMetrics reg (some e)])) ∨
  (∃ reg e, out =
      (fmt.Errorf "unable to register server metrics: " (some e),
        h ++ [.NewKubeRegistry reg, .RegisterScraperMetrics reg none,
          .RegisterServerMetrics reg c.MetricResolution (some e)])) ∨
  (∃ reg, out =
      (none,
        h ++ [.NewKubeRegistry reg, .RegisterScraperMetrics reg none,
          .RegisterServerMetrics reg c.MetricResolution none, .ApimetricsRegister,
          .DefaultMetricsInstall reg s.NonGoRestfulMux]))


/-- The possible outcomes of `c.Complete` started on history `h`: one per place
where the function returns. -/
def CompleteShape (env : Env) (c : Config) (h : History)
    (out : (server × error) × History) : Prop :=
  (∃ client e,
      out = ((server.nil, fmt.Errorf "unable to construct lister client: " (some e)),
        h ++ [.NewForConfig c.Rest client (some e)]) ∧
      c.informer env h =
        ((SharedInformerFactory.nil, fmt.Errorf "unable to construct lister client: " (some e)),
          h ++ [.NewForConfig c.Rest client (some e)])) ∨
  (∃ client f kc e, out =
      ((server.nil,
          fmt.Errorf "unable to construct a client to connect to the kubelets: " (some e)),
        h ++ [.NewForConfig c.Rest client none, .NewSharedInformerFactory client 0 f,
          .KubeletComplete c.Kubelet kc (some e)])) ∨
  (∃ client f kc sc cc d gs e, out =
      ((server.nil, some e),
        h ++ [.NewForConfig c.Rest client none, .NewSharedInformerFactory client 0 f,
          .KubeletComplete c.Kubelet kc none,
          .NewScraper f.Core.V1.Nodes.Lister kc c.ScrapeTimeout sc,
          .ApiserverComplete c.Apiserver f cc, .NewEmptyDelegate d,
          .CompletedNew cc "metrics-server" d gs (some e)])) ∨
  (∃ client f kc sc cc d gs reg e,
      out = ((server.nil, fmt.Errorf "unable to register scraper metrics: " (some e)),
        h ++ [.NewForConfig c.Rest client none, .NewSharedInformerFactory client 0 f,
          .KubeletComplete c.Kubelet kc none,
          .NewScraper f.Core.V1.Nodes.Lister kc c.ScrapeTimeout sc,
          .ApiserverComplete c.Apiserver f cc, .NewEmptyDelegate d,
          .CompletedNew cc "metrics-server" d gs none, .NewKubeRegistry reg,
          .RegisterScraperMetrics reg (some e)]) ∧
      c.installMetrics env gs
          (h ++ [.NewForConfig c.Rest client none, .NewSharedInformerFactory client 0 f,
            .KubeletComplete c.Kubelet kc none,
            .NewScraper f.Core.V1.Nodes.Lister kc c.ScrapeTimeout sc,
            .ApiserverComplete c.Apiserver f cc, .NewEmptyDelegate d,
            .CompletedNew cc "metrics-server" d gs none]) =
        (fmt.Errorf "unable to register scraper metrics: " (some e),
          h ++ [.NewForConfig c.Rest client none, .NewSharedInformerFactory client 0 f,
            .KubeletComplete c.Kubelet kc none,
            .NewScraper f.Core.V1.Nodes.Lister kc c.ScrapeTimeout sc,
            .ApiserverComplete c.Apiserver f cc, .NewEmptyDelegate d,
            .CompletedNew cc "metrics-server" d gs none, .NewKubeRegistry reg,
            .RegisterScraperMetrics reg (some e)])) ∨
  (∃ client f kc sc cc d gs reg e,
      out = ((server.nil, fmt.Errorf "unable to register server metrics: " (some e)),
        h ++ [.NewForConfig c.Rest client none, .NewSharedInformerFactory client 0 f,
          .KubeletComplete c.Kubelet kc none,
          .NewScraper f.Core.V1.Nodes.Lister kc c.ScrapeTimeout sc,
          .ApiserverComplete c.Apiserver f cc, .NewEmptyDelegate d,
          .CompletedNew cc "metrics-server" d gs none, .NewKubeRegistry reg,
          .RegisterScraperMetrics reg none,
          .RegisterServerMetrics reg c.MetricResolution (some e)]) ∧
      c.installMetrics env gs
          (h ++ [.NewForConfig c.Rest client none, .NewSharedInformerFactory client 0 f,
            .KubeletComplete c.Kubelet kc none,
            .NewScraper f.Core.V1.Nodes.Lister kc c.ScrapeTimeout sc,
            .ApiserverComplete c.Apiserver f cc, .NewEmptyDelegate d,
            .CompletedNew cc "metrics-server" d gs none]) =
        (fmt.Errorf "unable to register server metrics: " (some e),
          h ++ [.NewForConfig c.Rest client none, .NewSharedInformerFactory client 0 f,
            .KubeletComplete c.Kubelet kc none,
            .NewScraper f.Core.V1.Nodes.Lister kc c.ScrapeTimeout sc,
            .ApiserverComplete c.Apiserver f cc, .NewEmptyDelegate d,
            .CompletedNew cc "metrics-server" d gs none, .NewKubeRegistry reg,
            .RegisterScraperMetrics reg none,
            .RegisterServerMetrics reg c.MetricResolution (some e)])) ∨
  (∃ client f kc sc cc d gs reg st e, out =
      ((server.nil, some e),
        h ++ [.NewForConfig c.Rest client none, .NewSharedInformerFactory client 0 f,
          .KubeletComplete c.Kubelet kc none,
          .NewScraper f.Core.V1.Nodes.Lister kc c.ScrapeTimeout sc,
          .ApiserverComplete c.Apiserver f cc, .NewEmptyDelegate d,
          .CompletedNew cc "metrics-server" d gs none, .NewKubeRegistry reg,
          .RegisterScraperMetrics reg none,
          .RegisterServerMetrics reg c.MetricResolution none, .ApimetricsRegister,
          .DefaultMetricsInstall reg gs.NonGoRestfulMux, .NewStorage st,
          .ApiInstall st f.Core.V1 gs (some e)])) ∨
  (∃ client f kc sc cc d gs reg st srv, out =
      ((srv, none),
        h ++ [.NewForConfig c.Rest client none, .NewSharedInformerFactory client 0 f,
          .KubeletComplete c.Kubelet kc none,
          .NewScraper f.Core.V1.Nodes.Lister kc c.ScrapeTimeout sc,
          .ApiserverComplete c.Apiserver f cc, .NewEmptyDelegate d,
          .CompletedNew cc "metrics-server" d gs none, .NewKubeRegistry reg,
          .RegisterScraperMetrics reg none,
          .RegisterServerMetrics reg c.MetricResolution none, .ApimetricsRegister,
          .DefaultMetricsInstall reg gs.NonGoRestfulMux, .NewStorage st,
          .ApiInstall st f.Core.V1 gs none,
          .NewServer f.Core.V1.Nodes.Informer.HasSynced f gs st sc c.MetricResolution srv]))

/-! ## Running a computation -/

theorem World.pure_apply {α : Type} (a : α) (h : History) : (pure a : World α) h = (a, h) := rfl

theorem World.bind_apply {α β : Type} (m : World α) (f : α → World β) (h : History) :
    (m >>= f) h = f (m h).1 (m h).2 := rfl

theorem World.ite_apply {α : Type} (p : Prop) [Decidable p] (m n : World α) (h : History) :
    (if p then m else n) h = if p then m h else n h := by
  split <;> rfl

/-! ## Rules for `Ensures` -/

theorem Ensures_bind {α β : Type} (m : World α) (f : α → World β) (h : History)
    (Q : β → History → Prop) :
    Ensures (m >>= f) h Q ↔ Ensures m h (fun a t => Ensures (f a) t Q) := Iff.rfl

theorem Ensures_pure {α : Type} (a : α) (h : History) (Q : α → History → Prop) :
    Ensures (pure a) h Q ↔ Q a h := Iff.rfl

theorem Ensures_ite {α : Type} (p : Prop) [Decidable p] (m n : World α) (h : History)
    (Q : α → History → Prop) :
    Ensures (if p then m else n) h Q ↔ (p → Ensures m h Q) ∧ (¬p → Ensures n h Q) := by
  by_cases hp : p <;> simp [hp]

theorem Ensures_record (call : Call) (h : History) (Q : Unit → History → Prop) :
    Ensures (record call) h Q ↔ Q () (h ++ [call]) := Iff.rfl

theorem Ensures_callNewForConfig (env : Env) (c : RestConfig) (h : History)
    (Q : Clientset × error → History → Prop)
    (hQ : ∀ r e, Q (r, e) (h ++ [.NewForConfig c r e])) :
    Ensures (env.callNewForConfig c) h Q := hQ _ _

theorem Ensures_callNewSharedInformerFactory (env : Env) (client : Clientset) (d : Duration)
    (h : History) (Q : SharedInformerFactory → History → Prop)
    (hQ : ∀ r, Q r (h ++ [.NewSharedInformerFactory client d r])) :
    Ensures (env.callNewSharedInformerFactory client d) h Q := hQ _

theorem Ensures_callKubeletComplete (env : Env) (k : KubeletClientConfig) (h : History)
    (Q : KubeletClient × error → History → Prop)
    (hQ : ∀ r e, Q (r, e) (h ++ [.KubeletComplete k r e])) :
    Ensures (env.callKubeletComplete k) h Q := hQ _ _

theorem Ensures_callNewScraper (env : Env) (l : NodeLister) (k : KubeletClient) (d : Duration)
    (h : History) (Q : Scraper → History → Prop)
    (hQ : ∀ r, Q r (h ++ [.NewScraper l k d r])) :
    Ensures (env.callNewScraper l k d) h Q := hQ _

theorem Ensures_callApiserverComplete (env : Env) (a : ApiserverConfig)
    (f : SharedInformerFactory) (h : History) (Q : CompletedConfig → History → Prop)
    (hQ : ∀ r, Q r (h ++ [.ApiserverComplete a f r])) :
    Ensures (env.callApiserverComplete a f) h Q := hQ _

theorem Ensures_callNewEmptyDelegate (env : Env) (h : History)
    (Q : DelegationTarget → History → Prop)
    (hQ : ∀ r, Q r (h ++ [.NewEmptyDelegate r])) :
    Ensures env.callNewEmptyDelegate h Q := hQ _

theorem Ensures_callCompletedNew (env : Env) (cc : CompletedConfig) (name : String)
    (d : DelegationTarget) (h : History) (Q : GenericAPIServer × error → History → Prop)
    (hQ : ∀ r e, Q (r, e) (h ++ [.CompletedNew cc name d r e])) :
    Ensures (env.callCompletedNew cc name d) h Q := hQ _ _

theorem Ensures_callNewKubeRegistry (env : Env) (h : History)
    (Q : KubeRegistry → History → Prop)
    (hQ : ∀ r, Q r (h ++ [.NewKubeRegistry r])) :
    Ensures env.callNewKubeRegistry h Q := hQ _

theorem Ensures_callRegisterScraperMetrics (env : Env) (reg : KubeRegistry) (h : History)
    (Q : error → History → Prop)
    (hQ : ∀ e, Q e (h ++ [.RegisterScraperMetrics reg e])) :
    Ensures (env.callRegisterScraperMetrics reg) h Q := hQ _

theorem Ensures_callRegisterServerMetrics (env : Env) (reg : KubeRegistry) (d : Duration)
    (h : History) (Q : error → History → Prop)
    (hQ : ∀ e, Q e (h ++ [.RegisterServerMetrics reg d e])) :
    Ensures (env.callRegisterServerMetrics reg d) h Q := hQ _

theorem Ensures_callNewStorage (env : Env) (h : History) (Q : Storage → History → Prop)
    (hQ : ∀ r, Q r (h ++ [.NewStorage r])) :
    Ensures env.callNewStorage h Q := hQ _

theorem Ensures_callApiInstall (env : Env) (st : Storage) (core : CoreV1)
    (s : GenericAPIServer) (h : History) (Q : error → History → Prop)
    (hQ : ∀ e, Q e (h ++ [.ApiInstall st core s e])) :
    Ensures (env.callApiInstall st core s) h Q := hQ _

theorem Ensures_callNewServer (env : Env) (sync : InformerSynced) (f : SharedInformerFactory)
    (gs : GenericAPIServer) (st : Storage) (sc : Scraper) (d : Duration) (h : History)
    (Q : server → History → Prop)
    (hQ : ∀ r, Q r (h ++ [.NewServer sync f gs st sc d r])) :
    Ensures (env.callNewServer sync f gs st sc d) h Q := hQ _

theorem Ensures_run {α : Type} {m : World α} {h : History} {P Q : α → History → Prop}
    (hP : Ensures m h P) (hPQ : ∀ a t, m h = (a, t) → P a t → Q a t) : Ensures m h Q :=
  hPQ _ _ rfl hP

/-! ## The outcomes of the three functions -/

theorem informer_ensures (env : Env) (c : Config) (h : History) :
    Ensures (c.informer env) h (fun r t => informerShape c h (r, t)) := by
  unfold Config.informer
  simp only [Ensures_bind, Ensures_pure, Ensures_ite]
  apply Ensures_callNewForConfig; intro client err
  refine ⟨fun hne => ?_, fun heq => ?_⟩
  · obtain ⟨e, rfl⟩ := Option.ne_none_iff_exists'.mp hne
    exact Or.inl ⟨client, e, rfl⟩
  · obtain rfl : err = none := not_not.mp heq
    apply Ensures_callNewSharedInformerFactory; intro f
    exact Or.inr ⟨client, f, by simp⟩

theorem installMetrics_ensures (env : Env) (c : Config) (s : GenericAPIServer) (h : History) :
    Ensures (c.installMetrics env s) h (fun r t => installMetricsShape c s h (r, t)) := by
  unfold Config.installMetrics apimetrics.Register DefaultMetrics.Install
  simp only [Ensures_bind, Ensures_pure, Ensures_ite, Ensures_record]
  apply Ensures_callNewKubeRegistry; intro reg
  apply Ensures_callRegisterScraperMetrics; intro err
  refine ⟨fun hne => ?_, fun heq => ?_⟩
  · obtain ⟨e, rfl⟩ := Option.ne_none_iff_exists'.mp hne
    exact Or.inl ⟨reg, e, by simp⟩
  · obtain rfl : err = none := not_not.mp heq
    apply Ensures_callRegisterServerMetrics; intro err
    refine ⟨fun hne => ?_, fun heq => ?_⟩
    · obtain ⟨e, rfl⟩ := Option.ne_none_iff_exists'.mp hne
      exact Or.inr (Or.inl ⟨reg, e, by simp⟩)
    · obtain rfl : err = none := not_not.mp heq
      exact Or.inr (Or.inr ⟨reg, by simp⟩)

theorem Complete_ensures (env : Env) (c : Config) (h : History) :
    Ensures (c.Complete env) h (fun r t => CompleteShape env c h (r, t)) := by
  unfold Config.Complete
  simp only [Ensures_bind, Ensures_pure, Ensures_ite]
  refine Ensures_run (informer_ensures env c h) ?_
  rintro ⟨informer, err⟩ t hrun (⟨client, e, hout⟩ | ⟨client, f, hout⟩)
  · obtain ⟨⟨rfl, rfl⟩, rfl⟩ := Prod.mk.inj hout |>.imp Prod.mk.inj id
    exact ⟨fun _ => Or.inl ⟨client, e, rfl, hrun⟩, fun hn => absurd (by simp [fmt.Errorf]) hn⟩
  · obtain ⟨⟨rfl, rfl⟩, rfl⟩ := Prod.mk.inj hout |>.imp Prod.mk.inj id
    refine ⟨fun hn => absurd rfl hn, fun _ => ?_⟩
    apply Ensures_callKubeletComplete; intro kc err
    refine ⟨fun hne => ?_, fun heq => ?_⟩
    · obtain ⟨e, rfl⟩ := Option.ne_none_iff_exists'.mp hne
      exact Or.inr (Or.inl ⟨client, informer, kc, e, by simp⟩)
    · obtain rfl : err = none := not_not.mp heq
      apply Ensures_callNewScraper; intro sc
      apply Ensures_callApiserverComplete; intro cc
      apply Ensures_callNewEmptyDelegate; intro d
      apply Ensures_callCompletedNew; intro gs err
      refine ⟨fun hne => ?_, fun heq => ?_⟩
      · obtain ⟨e, rfl⟩ := Option.ne_none_iff_exists'.mp hne
        exact Or.inr (Or.inr (Or.inl ⟨client, informer, kc, sc, cc, d, gs, e, by simp⟩))
      · obtain rfl : err = none := not_not.mp heq
        refine Ensures_run (installMetrics_ensures env c gs _) ?_
        rintro err t hrun (⟨reg, e, hout⟩ | ⟨reg, e, hout⟩ | ⟨reg, hout⟩)
        · obtain ⟨rfl, rfl⟩ := Prod.mk.inj hout
          refine ⟨fun _ => ?_, fun hn => absurd (by simp [fmt.Errorf]) hn⟩
          exact Or.inr (Or.inr (Or.inr (Or.inl
            ⟨client, informer, kc, sc, cc, d, gs, reg, e, by simp, by simpa using hrun⟩)))
        · obtain ⟨rfl, rfl⟩ := Prod.mk.inj hout
          refine ⟨fun _ => ?_, fun hn => absurd (by simp [fmt.Errorf]) hn⟩
          exact Or.inr (Or.inr (Or.inr (Or.inr (Or.inl
            ⟨client, informer, kc, sc, cc, d, gs, reg, e, by simp, by simpa using hrun⟩))))
        · obtain ⟨rfl, rfl⟩ := Prod.mk.inj hout
          refine ⟨fun hn => absurd rfl hn, fun _ => ?_⟩
          apply Ensures_callNewStorage; intro st
          apply Ensures_callApiInstall; intro err
          refine ⟨fun hne => ?_, fun heq => ?_⟩
          · obtain ⟨e, rfl⟩ := Option.ne_none_iff_exists'.mp hne
            exact Or.inr (Or.inr (Or.inr (Or.inr (Or.inr (Or.inl
              ⟨client, informer, kc, sc, cc, d, gs, reg, st, e, by simp⟩)))))
          · obtain rfl : err = none := not_not.mp heq
            apply Ensures_callNewServer; intro srv
            exact Or.inr (Or.inr (Or.inr (Or.inr (Or.inr (Or.inr
              ⟨client, informer, kc, sc, cc, d, gs, reg, st, srv, by simp⟩)))))

theorem informer_shape (env : Env) (c : Config) (h : History) :
    informerShape c h (c.informer env h) := informer_ensures env c h

theorem installMetrics_shape (env : Env) (c : Config) (s : GenericAPIServer) (h : History) :
    installMetricsShape c s h (c.installMetrics env s h) := installMetrics_ensures env c s h

theorem Complete_shape (env : Env) (c : Config) (h : History) :
    CompleteShape env c h (c.Complete env h) := Complete_ensures env c h

theorem callsOf_append {α : Type} (m : World α) (h calls : List Call) (a : α)
    (hm : m h = (a, h ++ calls)) : callsOf m h = calls := by
  simp [callsOf, hm]

theorem Complete_success (env : Env) (c : Config) (h : History)
    (hok : (c.Complete env h).1.2 = none) :
    ∃ client f kc sc cc d gs reg st srv, c.Complete env h =
      ((srv, none),
        h ++ [.NewForConfig c.Rest client none, .NewSharedInformerFactory client 0 f,
          .KubeletComplete c.Kubelet kc none,
          .NewScraper f.Core.V1.Nodes.Lister kc c.ScrapeTimeout sc,
          .ApiserverComplete c.Apiserver f cc, .NewEmptyDelegate d,
          .CompletedNew cc "metrics-server" d gs none, .NewKubeRegistry reg,
          .RegisterScraperMetrics reg none,
          .RegisterServerMetrics reg c.MetricResolution none, .ApimetricsRegister,
          .DefaultMetricsInstall reg gs.NonGoRestfulMux, .NewStorage st,
          .ApiInstall st f.Core.V1 gs none,
          .NewServer f.Core.V1.Nodes.Informer.HasSynced f gs st sc c.MetricResolution srv]) := by
  rcases Complete_shape env c h with ⟨_, _, hout, _⟩ | ⟨_, _, _, _, hout⟩ |
    ⟨_, _, _, _, _, _, _, _, hout⟩ | ⟨_, _, _, _, _, _, _, _, _, hout, _⟩ |
    ⟨_, _, _, _, _, _, _, _, _, hout, _⟩ | ⟨_, _, _, _, _, _, _, _, _, _, hout⟩ |
    ⟨client, f, kc, sc, cc, d, gs, reg, st, srv, hout⟩
  · simp [hout, fmt.Errorf] at hok
  · simp [hout, fmt.Errorf] at hok
  · simp [hout] at hok
  · simp [hout, fmt.Errorf] at hok
  · simp [hout, fmt.Errorf] at hok
  · simp [hout] at hok
  · exact ⟨client, f, kc, sc, cc, d, gs, reg, st, srv, hout⟩

theorem Complete_error_iff (env : Env) (c : Config) (h : History) :
    (c.Complete env h).1.2 ≠ none ↔ ∃ call ∈ callsOf (c.Complete env) h, call.err ≠ none := by
  rcases Complete_shape env c h with ⟨_, _, hout, _⟩ | ⟨_, _, _, _, hout⟩ |
    ⟨_, _, _, _, _, _, _, _, hout⟩ | ⟨_, _, _, _, _, _, _, _, _, hout, _⟩ |
    ⟨_, _, _, _, _, _, _, _, _, hout, _⟩ | ⟨_, _, _, _, _, _, _, _, _, _, hout⟩ |
    ⟨_, _, _, _, _, _, _, _, _, _, hout⟩ <;>
  · rw [callsOf_append _ _ _ _ hout, hout]
    simp [Call.err, fmt.Errorf]

/-! ## The claims -/

/-- C2: whenever `Config.Complete` succeeds it has called `scraper.NewScraper`
exactly once, with timeout `c.ScrapeTimeout`, and `NewServer` exactly once, with
the scraper that call returned and with resolution `c.MetricResolution`, and the
server it returns is the one `NewServer` returned. -/
theorem Complete_hands_over_durations (env : Env) (c : Config) (h : History)
    (hok : (c.Complete env h).1.2 = none) :
    ∃ sc, scrapersBuilt (callsOf (c.Complete env) h) = [(c.ScrapeTimeout, sc)] ∧
      serversBuilt (callsOf (c.Complete env) h) =
        [(sc, c.MetricResolution, (c.Complete env h).1.1)] := by
  obtain ⟨client, f, kc, sc, cc, d, gs, reg, st, srv, hout⟩ := Complete_success env c h hok
  rw [callsOf_append _ _ _ _ hout, hout]
  exact ⟨sc, rfl, rfl⟩

/-- Witness of C2: a run in which every collaborator succeeds, with scrape
timeout 10s and resolution 60s. -/
theorem Complete_hands_over_durations_witness :
    (goodConfig.Complete (testEnv []) []).1.2 = none ∧
    ∃ sc, scrapersBuilt (callsOf (goodConfig.Complete (testEnv [])) []) =
        [(goodConfig.ScrapeTimeout, sc)] ∧
      serversBuilt (callsOf (goodConfig.Complete (testEnv [])) []) =
        [(sc, goodConfig.MetricResolution, (goodConfig.Complete (testEnv []) []).1.1)] :=
  ⟨by decide, Complete_hands_over_durations (testEnv []) goodConfig [] (by decide)⟩

/-- C3: whenever `Config.Complete` succeeds it has called `storage.NewStorage`
exactly once, and the store that call returned is the only store handed to
`api.Install` and the only store handed to `NewServer`. -/
theorem Complete_shares_one_store (env : Env) (c : Config) (h : History)
    (hok : (c.Complete env h).1.2 = none) :
    ∃ st, storesCreated (callsOf (c.Complete env) h) = [st] ∧
      storesInstalled (callsOf (c.Complete env) h) = [st] ∧
      storesServed (callsOf (c.Complete env) h) = [st] := by
  obtain ⟨client, f, kc, sc, cc, d, gs, reg, st, srv, hout⟩ := Complete_success env c h hok
  rw [callsOf_append _ _ _ _ hout]
  exact ⟨st, rfl, rfl, rfl⟩

/-- Witness of C3: a run in which every collaborator succeeds. -/
theorem Complete_shares_one_store_witness :
    (goodConfig.Complete (testEnv []) []).1.2 = none ∧
    ∃ st, storesCreated (callsOf (goodConfig.Complete (testEnv [])) []) = [st] ∧
      storesInstalled (callsOf (goodConfig.Complete (testEnv [])) []) = [st] ∧
      storesServed (callsOf (goodConfig.Complete (testEnv [])) []) = [st] :=
  ⟨by decide, Complete_shares_one_store (testEnv []) goodConfig [] (by decide)⟩

/-- C4: whenever `Config.Complete` succeeds it has built exactly one informer
factory `f`; the lister handed to the scraper and the readiness gate handed to
the server are the `Lister()` and the `Informer().HasSynced` of the one node
source `f.Core().V1().Nodes()`, and `f` is the factory handed to the generic API
server, to `api.Install` (as `f.Core().V1()`) and to `NewServer`. -/
theorem Complete_uses_one_node_source (env : Env) (c : Config) (h : History)
    (hok : (c.Complete env h).1.2 = none) :
    ∃ f, factoriesBuilt (callsOf (c.Complete env) h) = [(0, f)] ∧
      scraperListers (callsOf (c.Complete env) h) = [f.Core.V1.Nodes.Lister] ∧
      serverSources (callsOf (c.Complete env) h) = [(f.Core.V1.Nodes.Informer.HasSynced, f)] ∧
      apiserverFactories (callsOf (c.Complete env) h) = [f] ∧
      apiCores (callsOf (c.Complete env) h) = [f.Core.V1] := by
  obtain ⟨client, f, kc, sc, cc, d, gs, reg, st, srv, hout⟩ := Complete_success env c h hok
  rw [callsOf_append _ _ _ _ hout]
  exact ⟨f, rfl, rfl, rfl, rfl, rfl⟩

/-- Witness of C4: a run in which every collaborator succeeds. -/
theorem Complete_uses_one_node_source_witness :
    (goodConfig.Complete (testEnv []) []).1.2 = none ∧
    ∃ f, factoriesBuilt (callsOf (goodConfig.Complete (testEnv [])) []) = [(0, f)] ∧
      scraperListers (callsOf (goodConfig.Complete (testEnv [])) []) =
        [f.Core.V1.Nodes.Lister] ∧
      serverSources (callsOf (goodConfig.Complete (testEnv [])) []) =
        [(f.Core.V1.Nodes.Informer.HasSynced, f)] ∧
      apiserverFactories (callsOf (goodConfig.Complete (testEnv [])) []) = [f] ∧
      apiCores (callsOf (goodConfig.Complete (testEnv [])) []) = [f.Core.V1] :=
  ⟨by decide, Complete_uses_one_node_source (testEnv []) goodConfig [] (by decide)⟩

/-- C1, counterexample: with scrape timeout 90s, resolution 60s and every
collaborator succeeding, `Config.Complete` returns a nil error and hands the
scraper a timeout above the resolution it hands to the server: it neither
rejects nor clamps. -/
theorem Complete_does_not_enforce_timeout_bound :
    badConfig.MetricResolution < badConfig.ScrapeTimeout ∧
    (∀ call ∈ callsOf (badConfig.Complete (testEnv [])) [], call.err = none) ∧
    (badConfig.Complete (testEnv []) []).1.2 = none ∧
    scraperTimeouts (callsOf (badConfig.Complete (testEnv [])) []) = [90000000000] ∧
    serverResolutions (callsOf (badConfig.Complete (testEnv [])) []) = [60000000000] ∧
    ¬ RejectsOrClamps (testEnv []) badConfig [] := by
  decide

/-- C1, amended: `Config.Complete` makes no check of its own.  When every
collaborator call succeeds it returns a nil error, it calls `scraper.NewScraper`
once, with timeout `c.ScrapeTimeout` unchanged, and `NewServer` once, with
resolution `c.MetricResolution` unchanged, and so the timeout it hands to the
scraper is at most the resolution it hands to the server exactly when
`c.ScrapeTimeout ≤ c.MetricResolution` already holds of the `Config`. -/
theorem Complete_passes_durations_through (env : Env) (c : Config) (h : History)
    (hsteps : ∀ call ∈ callsOf (c.Complete env) h, call.err = none) :
    (c.Complete env h).1.2 = none ∧
    scraperTimeouts (callsOf (c.Complete env) h) = [c.ScrapeTimeout] ∧
    serverResolutions (callsOf (c.Complete env) h) = [c.MetricResolution] ∧
    (RejectsOrClamps env c h ↔ c.ScrapeTimeout ≤ c.MetricResolution) := by
  have hok : (c.Complete env h).1.2 = none := by
    by_contra hne
    obtain ⟨call, hmem, herr⟩ := (Complete_error_iff env c h).mp hne
    exact herr (hsteps call hmem)
  obtain ⟨client, f, kc, sc, cc, d, gs, reg, st, srv, hout⟩ := Complete_success env c h hok
  have hcalls := callsOf_append _ _ _ _ hout
  refine ⟨hok, ?_, ?_, ?_⟩
  · rw [hcalls]; rfl
  · rw [hcalls]; rfl
  · unfold RejectsOrClamps
    rw [hcalls, hout]
    simp [scraperTimeouts, serverResolutions]

/-- Witness of the amended C1: a run in which every collaborator succeeds, with
scrape timeout 10s and resolution 60s. -/
theorem Complete_passes_durations_through_witness :
    (∀ call ∈ callsOf (goodConfig.Complete (testEnv [])) [], call.err = none) ∧
    (goodConfig.Complete (testEnv []) []).1.2 = none ∧
    scraperTimeouts (callsOf (goodConfig.Complete (testEnv [])) []) =
      [goodConfig.ScrapeTimeout] ∧
    serverResolutions (callsOf (goodConfig.Complete (testEnv [])) []) =
      [goodConfig.MetricResolution] ∧
    (RejectsOrClamps (testEnv []) goodConfig [] ↔
      goodConfig.ScrapeTimeout ≤ goodConfig.MetricResolution) :=
  ⟨by decide, Complete_passes_durations_through (testEnv []) goodConfig [] (by decide)⟩

/-- C5: when `kubernetes.NewForConfig(c.Rest)` yields a client, `Config.informer`
calls `informers.NewSharedInformerFactory` once, with that client and resync
interval 0, and returns its result with a nil error; when it yields an error,
`Config.informer` makes no further call and returns the nil factory with an
error whose message is `unable to construct lister client: ` followed by the
message of the cause; and the outcome depends on no field of the `Config`
other than `Rest`. -/
theorem informer_builds_factory_without_resync (env : Env) (c : Config) (h : History) :
    (∀ client, env.NewForConfig h c.Rest = (client, none) →
      ∃ f, f = env.NewSharedInformerFactory (h ++ [.NewForConfig c.Rest client none]) client 0 ∧
        c.informer env h =
          ((f, none),
            h ++ [.NewForConfig c.Rest client none, .NewSharedInformerFactory client 0 f])) ∧
    (∀ client cause, env.NewForConfig h c.Rest = (client, some cause) →
      ∃ e, e.Error = "unable to construct lister client: " ++ cause.Error ∧
        c.informer env h =
          ((SharedInformerFactory.nil, some e),
            h ++ [.NewForConfig c.Rest client (some cause)])) ∧
    (∀ c2 : Config, c2.Rest = c.Rest → c2.informer env h = c.informer env h) := by
  refine ⟨fun client hcl => ⟨_, rfl, ?_⟩, fun client cause hcl =>
    ⟨.fmtError ("unable to construct lister client: " ++ cause.Error), rfl, ?_⟩, ?_⟩
  · simp [Config.informer, World.bind_apply, World.pure_apply, World.ite_apply,
      Env.callNewForConfig, Env.callNewSharedInformerFactory, hcl]
  · simp [Config.informer, World.bind_apply, World.pure_apply, World.ite_apply,
      Env.callNewForConfig, hcl, fmt.Errorf, fmt.verbV]
  · intro c2 hrest
    simp [Config.informer, hrest]

/-- Witness of C5: one run in which the client is built and one in which it is
not. -/
theorem informer_builds_factory_without_resync_witness :
    (∃ f, f = (testEnv []).NewSharedInformerFactory [.NewForConfig goodConfig.Rest ⟨1⟩ none]
          ⟨1⟩ 0 ∧
        goodConfig.informer (testEnv []) [] =
          ((f, none),
            [.NewForConfig goodConfig.Rest ⟨1⟩ none, .NewSharedInformerFactory ⟨1⟩ 0 f])) ∧
    (∃ e, e.Error = "unable to construct lister client: " ++ "no client" ∧
        goodConfig.informer (testEnv [0]) [] =
          ((SharedInformerFactory.nil, some e),
            [.NewForConfig goodConfig.Rest ⟨1⟩ (some (.other 1 "no client"))])) :=
  ⟨(informer_builds_factory_without_resync (testEnv []) goodConfig []).1 ⟨1⟩ rfl,
    (informer_builds_factory_without_resync (testEnv [0]) goodConfig []).2.1 ⟨1⟩
      (.other 1 "no client") rfl⟩

/-- C6: `Config.Complete` returns a non-nil error exactly when one of the calls
it made returned a non-nil error, and such a call belongs to one of the five
fallible steps (`informer`, `Kubelet.Complete`, the generic API server,
`installMetrics`, `api.Install`); the two steps that are functions of this file,
`informer` and `installMetrics`, themselves return a non-nil error exactly when
one of their calls did.  Whenever `Complete` returns an error the server it
returns is nil, and when no call fails it returns a nil error together with the
server returned by `NewServer`, its last call. -/
theorem Complete_error_iff_step_fails (env : Env) (c : Config) (h : History) :
    ((c.Complete env h).1.2 ≠ none ↔
      ∃ call ∈ callsOf (c.Complete env) h, call.err ≠ none) ∧
    (∀ call ∈ callsOf (c.Complete env) h, call.err ≠ none → call.step ∈ Step.fallible) ∧
    ((c.informer env h).1.2 ≠ none ↔
      ∃ call ∈ callsOf (c.informer env) h, call.err ≠ none) ∧
    (∀ s t, (c.installMetrics env s t).1 ≠ none ↔
      ∃ call ∈ callsOf (c.installMetrics env s) t, call.err ≠ none) ∧
    ((c.Complete env h).1.2 ≠ none → (c.Complete env h).1.1 = server.nil) ∧
    ((∀ call ∈ callsOf (c.Complete env) h, call.err = none) →
      (c.Complete env h).1.2 = none ∧
      ∃ sync f gs st sc d, (callsOf (c.Complete env) h).getLast? =
        some (.NewServer sync f gs st sc d (c.Complete env h).1.1)) := by
  refine ⟨Complete_error_iff env c h, ?_, ?_, ?_, ?_, ?_⟩
  · intro call _ herr
    cases call <;> first | exact absurd rfl herr | simp [Call.step, Step.fallible]
  · rcases informer_shape env c h with ⟨_, _, hout⟩ | ⟨_, _, hout⟩ <;>
    · rw [callsOf_append _ _ _ _ hout, hout]
      simp [Call.err, fmt.Errorf]
  · intro s t
    rcases installMetrics_shape env c s t with ⟨_, _, hout⟩ | ⟨_, _, hout⟩ | ⟨_, hout⟩ <;>
    · rw [callsOf_append _ _ _ _ hout, hout]
      simp [Call.err, fmt.Errorf]
  · intro hne
    rcases Complete_shape env c h with ⟨_, _, hout, _⟩ | ⟨_, _, _, _, hout⟩ |
      ⟨_, _, _, _, _, _, _, _, hout⟩ | ⟨_, _, _, _, _, _, _, _, _, hout, _⟩ |
      ⟨_, _, _, _, _, _, _, _, _, hout, _⟩ | ⟨_, _, _, _, _, _, _, _, _, _, hout⟩ |
      ⟨_, _, _, _, _, _, _, _, _, _, hout⟩
    all_goals first
      | (rw [hout] at hne; exact absurd rfl hne)
      | (rw [hout])
  · intro hsteps
    have hok : (c.Complete env h).1.2 = none := by
      by_contra hne
      obtain ⟨call, hmem, herr⟩ := (Complete_error_iff env c h).mp hne
      exact herr (hsteps call hmem)
    obtain ⟨client, f, kc, sc, cc, d, gs, reg, st, srv, hout⟩ := Complete_success env c h hok
    refine ⟨hok, f.Core.V1.Nodes.Informer.HasSynced, f, gs, st, sc, c.MetricResolution, ?_⟩
    rw [callsOf_append _ _ _ _ hout, hout]
    rfl

/-- Witness of C6: a run in which `Kubelet.Complete` fails and a run in which
no call fails. -/
theorem Complete_error_iff_step_fails_witness :
    (goodConfig.Complete (testEnv [2]) []).1.1 = server.nil ∧
    ((goodConfig.Complete (testEnv []) []).1.2 = none ∧
      ∃ sync f gs st sc d, (callsOf (goodConfig.Complete (testEnv [])) []).getLast? =
        some (.NewServer sync f gs st sc d (goodConfig.Complete (testEnv []) []).1.1)) :=
  ⟨(Complete_error_iff_step_fails (testEnv [2]) goodConfig []).2.2.2.2.1 (by decide),
    (Complete_error_iff_step_fails (testEnv []) goodConfig []).2.2.2.2.2 (by decide)⟩

/-- C7: `Config.Complete` performs its steps in the order `informer`,
`Kubelet.Complete`, `scraper.NewScraper`, generic API server, `installMetrics`,
`storage.NewStorage`, `api.Install`, `NewServer`, stopping at some point of that
sequence: the steps of its successive calls, with each run of consecutive calls
of one step counted once, are an initial segment of that list, so no call of a
later step comes before a call of an earlier one; every call before the last
one returned a nil error, so nothing is
called after a failing call; and when the last call failed with `cause`, the
error returned is the one its step returned (the result of `c.informer`, the
error of `New`, the result of `c.installMetrics`, the error of `api.Install`),
except for `Kubelet.Complete`, where it is a new error whose message is
`unable to construct a client to connect to the kubelets: ` followed by the
message of `cause`. -/
theorem Complete_fails_fast (env : Env) (c : Config) (h : History) :
    (∃ k, ((callsOf (c.Complete env) h).map Call.step).destutter (· ≠ ·) =
      Step.order.take k) ∧
    (∀ call ∈ (callsOf (c.Complete env) h).dropLast, call.err = none) ∧
    (∀ call cause, (callsOf (c.Complete env) h).getLast? = some call → call.err = some cause →
      match call.step with
      | .informer =>
          (c.Complete env h).1.2 = (c.informer env h).1.2 ∧
          callsOf (c.Complete env) h = callsOf (c.informer env) h
      | .kubeletComplete =>
          (c.Complete env h).1.2 = some (.fmtError
            ("unable to construct a client to connect to the kubelets: " ++ cause.Error))
      | .genericServer => (c.Complete env h).1.2 = some cause
      | .installMetrics =>
          ∃ cc d gs before, before.getLast? = some (.CompletedNew cc "metrics-server" d gs none) ∧
            callsOf (c.Complete env) h =
              before ++ callsOf (c.installMetrics env gs) (h ++ before) ∧
            (c.Complete env h).1.2 = (c.installMetrics env gs (h ++ before)).1
      | .apiInstall => (c.Complete env h).1.2 = some cause
      | _ => False) := by
  rcases Complete_shape env c h with ⟨client, e, hout, hinf⟩ | ⟨client, f, kc, e, hout⟩ |
    ⟨client, f, kc, sc, cc, d, gs, e, hout⟩ |
    ⟨client, f, kc, sc, cc, d, gs, reg, e, hout, hinst⟩ |
    ⟨client, f, kc, sc, cc, d, gs, reg, e, hout, hinst⟩ |
    ⟨client, f, kc, sc, cc, d, gs, reg, st, e, hout⟩ |
    ⟨client, f, kc, sc, cc, d, gs, reg, st, srv, hout⟩
  · rw [callsOf_append _ _ _ _ hout, callsOf_append _ _ _ _ hinf, hout, hinf]
    refine ⟨⟨1, by simp only [List.map, Call.step]; decide⟩, by simp, ?_⟩
    intro call cause hlast herr
    obtain rfl : Call.NewForConfig c.Rest client (some e) = call := by simpa using hlast
    exact ⟨rfl, rfl⟩
  · rw [callsOf_append _ _ _ _ hout, hout]
    refine ⟨⟨2, by simp only [List.map, Call.step]; decide⟩, by simp [Call.err], ?_⟩
    intro call cause hlast herr
    obtain rfl : Call.KubeletComplete c.Kubelet kc (some e) = call := by simpa using hlast
    obtain rfl : e = cause := by simpa [Call.err] using herr
    rfl
  · rw [callsOf_append _ _ _ _ hout, hout]
    refine ⟨⟨4, by simp only [List.map, Call.step]; decide⟩, by simp [Call.err], ?_⟩
    intro call cause hlast herr
    obtain rfl : Call.CompletedNew cc "metrics-server" d gs (some e) = call := by
      simpa using hlast
    obtain rfl : e = cause := by simpa [Call.err] using herr
    rfl
  · have hrun : c.installMetrics env gs
        (h ++ [.NewForConfig c.Rest client none, .NewSharedInformerFactory client 0 f,
          .KubeletComplete c.Kubelet kc none,
          .NewScraper f.Core.V1.Nodes.Lister kc c.ScrapeTimeout sc,
          .ApiserverComplete c.Apiserver f cc, .NewEmptyDelegate d,
          .CompletedNew cc "metrics-server" d gs none]) =
        (fmt.Errorf "unable to register scraper metrics: " (some e),
          (h ++ [.NewForConfig c.Rest client none, .NewSharedInformerFactory client 0 f,
            .KubeletComplete c.Kubelet kc none,
            .NewScraper f.Core.V1.Nodes.Lister kc c.ScrapeTimeout sc,
            .ApiserverComplete c.Apiserver f cc, .NewEmptyDelegate d,
            .CompletedNew cc "metrics-server" d gs none]) ++
          [.NewKubeRegistry reg, .RegisterScraperMetrics reg (some e)]) := by
      rw [hinst]; simp
    rw [callsOf_append _ _ _ _ hout, hout]
    refine ⟨⟨5, by simp only [List.map, Call.step]; decide⟩, by simp [Call.err], ?_⟩
    intro call cause hlast herr
    obtain rfl : Call.RegisterScraperMetrics reg (some e) = call := by simpa using hlast
    refine ⟨cc, d, gs,
      [.NewForConfig c.Rest client none, .NewSharedInformerFactory client 0 f,
        .KubeletComplete c.Kubelet kc none,
        .NewScraper f.Core.V1.Nodes.Lister kc c.ScrapeTimeout sc,
        .ApiserverComplete c.Apiserver f cc, .NewEmptyDelegate d,
        .CompletedNew cc "metrics-server" d gs none], ?_, ?_, ?_⟩
    · exact rfl
    · rw [callsOf_append _ _ _ _ hrun]; rfl
    · rw [hrun]
  · have hrun : c.installMetrics env gs
        (h ++ [.NewForConfig c.Rest client none, .NewSharedInformerFactory client 0 f,
          .KubeletComplete c.Kubelet kc none,
          .NewScraper f.Core.V1.Nodes.Lister kc c.ScrapeTimeout sc,
          .ApiserverComplete c.Apiserver f cc, .NewEmptyDelegate d,
          .CompletedNew cc "metrics-server" d gs none]) =
        (fmt.Errorf "unable to register server metrics: " (some e),
          (h ++ [.NewForConfig c.Rest client none, .NewSharedInformerFactory client 0 f,
            .KubeletComplete c.Kubelet kc none,
            .NewScraper f.Core.V1.Nodes.Lister kc c.ScrapeTimeout sc,
            .ApiserverComplete c.Apiserver f cc, .NewEmptyDelegate d,
            .CompletedNew cc "metrics-server" d gs none]) ++
          [.NewKubeRegistry reg, .RegisterScraperMetrics reg none,
            .RegisterServerMetrics reg c.MetricResolution (some e)]) := by
      rw [hinst]; simp
    rw [callsOf_append _ _ _ _ hout, hout]
    refine ⟨⟨5, by simp only [List.map, Call.step]; decide⟩, by simp [Call.err], ?_⟩
    intro call cause hlast herr
    obtain rfl : Call.RegisterServerMetrics reg c.MetricResolution (some e) = call := by simpa using hlast
    refine ⟨cc, d, gs,
      [.NewForConfig c.Rest client none, .NewSharedInformerFactory client 0 f,
        .KubeletComplete c.Kubelet kc none,
        .NewScraper f.Core.V1.Nodes.Lister kc c.ScrapeTimeout sc,
        .ApiserverComplete c.Apiserver f cc, .NewEmptyDelegate d,
        .CompletedNew cc "metrics-server" d gs none], ?_, ?_, ?_⟩
    · exact rfl
    · rw [callsOf_append _ _ _ _ hrun]; rfl
    · rw [hrun]
  · rw [callsOf_append _ _ _ _ hout, hout]
    refine ⟨⟨7, by simp only [List.map, Call.step]; decide⟩, by simp [Call.err], ?_⟩
    intro call cause hlast herr
    obtain rfl : Call.ApiInstall st f.Core.V1 gs (some e) = call := by simpa using hlast
    obtain rfl : e = cause := by simpa [Call.err] using herr
    rfl
  · rw [callsOf_append _ _ _ _ hout, hout]
    refine ⟨⟨8, by simp only [List.map, Call.step]; decide⟩, by simp [Call.err], ?_⟩
    intro call cause hlast herr
    obtain rfl : Call.NewServer f.Core.V1.Nodes.Informer.HasSynced f gs st sc
        c.MetricResolution srv = call := by simpa using hlast
    simp [Call.err] at herr

/-- Witness of C7: a run in which `Kubelet.Complete` fails with the error
`no kubelet`; three calls are made and the wrapped error is returned. -/
theorem Complete_fails_fast_witness :
    (callsOf (goodConfig.Complete (testEnv [2])) []).getLast? =
      some (.KubeletComplete goodConfig.Kubelet ⟨3⟩ (some (.other 2 "no kubelet"))) ∧
    (callsOf (goodConfig.Complete (testEnv [2])) []).length = 3 ∧
    (goodConfig.Complete (testEnv [2]) []).1.2 = some (.fmtError
      ("unable to construct a client to connect to the kubelets: " ++ "no kubelet")) :=
  ⟨by decide, by decide,
    (Complete_fails_fast (testEnv [2]) goodConfig []).2.2
      (.KubeletComplete goodConfig.Kubelet ⟨3⟩ (some (.other 2 "no kubelet")))
      (.other 2 "no kubelet") (by decide) rfl⟩

end MetricsServer
